import Mathlib

/-
Verification of the Queue4Download Q4D client against its specification.

The Python sources are shallowly embedded:
  - `src/app/mqtt_handler.py` : `on_message`, `publish_label_event`,
    `_connect_with_retry`, `on_connect` (backoff state machine);
  - `src/app/transfer.py` : `FileTransfer.transfer_file`.

External collaborators (the paho MQTT client, the filesystem, the lftp
subprocess) are modelled as oracles passed in as parameters; the effects a
call performs (subprocess invocations, transport sends, log lines, the
working directory) are returned explicitly.  Machine-level concerns do not
arise: all numbers involved are small Python ints (arbitrary precision), so
`Nat` models them exactly.
-/

set_option autoImplicit false

namespace Q4D

/-! ## Bytes and text

A Python `bytes` value is a `List Nat` of bytes; a Python `str` is a
`List Nat` of Unicode code points.  `bytes.decode()` uses the strict UTF-8
codec, which rejects malformed sequences, overlong encodings, surrogates
and code points above U+10FFFF.
-/

/-- Strict UTF-8 decoding of a byte list into a code-point list, as done by
Python's `bytes.decode()` with the default `utf-8` codec and `strict`
errors: `none` models a raised `UnicodeDecodeError`. -/
def utf8Decode : List Nat → Option (List Nat)
  | [] => some []
  | b1 :: rest =>
    if b1 < 128 then
      match utf8Decode rest with
      | some cs => some (b1 :: cs)
      | none => none
    else if 194 ≤ b1 ∧ b1 ≤ 223 then
      match rest with
      | b2 :: rest2 =>
        if 128 ≤ b2 ∧ b2 ≤ 191 then
          match utf8Decode rest2 with
          | some cs => some (((b1 - 192) * 64 + (b2 - 128)) :: cs)
          | none => none
        else none
      | [] => none
    else if 224 ≤ b1 ∧ b1 ≤ 239 then
      match rest with
      | b2 :: b3 :: rest3 =>
        if (if b1 = 224 then 160 ≤ b2 ∧ b2 ≤ 191
            else if b1 = 237 then 128 ≤ b2 ∧ b2 ≤ 159
            else 128 ≤ b2 ∧ b2 ≤ 191) ∧ (128 ≤ b3 ∧ b3 ≤ 191) then
          match utf8Decode rest3 with
          | some cs =>
            some (((b1 - 224) * 4096 + (b2 - 128) * 64 + (b3 - 128)) :: cs)
          | none => none
        else none
      | _ => none
    else if 240 ≤ b1 ∧ b1 ≤ 244 then
      match rest with
      | b2 :: b3 :: b4 :: rest4 =>
        if (if b1 = 240 then 144 ≤ b2 ∧ b2 ≤ 191
            else if b1 = 244 then 128 ≤ b2 ∧ b2 ≤ 143
            else 128 ≤ b2 ∧ b2 ≤ 191) ∧
           (128 ≤ b3 ∧ b3 ≤ 191) ∧ (128 ≤ b4 ∧ b4 ≤ 191) then
          match utf8Decode rest4 with
          | some cs =>
            some (((b1 - 240) * 262144 + (b2 - 128) * 4096 +
                   (b3 - 128) * 64 + (b4 - 128)) :: cs)
          | none => none
        else none
      | _ => none
    else none

/-- Python `str.split('\t')` on a code-point list: splits at every tab
(code point 9), keeping empty fields, so `n` tabs yield `n + 1` fields. -/
def splitTab : List Nat → List (List Nat)
  | [] => [[]]
  | c :: rest =>
    if c = 9 then [] :: splitTab rest
    else
      match splitTab rest with
      | f :: fs => (c :: f) :: fs
      | [] => [[c]]

/-- Code points of a Lean string literal, for writing the protocol's
literal tokens. -/
def strCps (s : String) : List Nat := s.toList.map Char.toNat

/-- The sentinel `contentHash` value `"NotUsed"` that suppresses
acknowledgment (`mqtt_handler.py` line 210). -/
def notUsedHash : List Nat := strCps "NotUsed"

/-- `ACK = "DONE"` (`mqtt_handler.py` line 12). -/
def ackToken : List Nat := strCps "DONE"

/-- `NACK = "NOPE"` (`mqtt_handler.py` line 13). -/
def nackToken : List Nat := strCps "NOPE"

/-- `LABEL_CHANNEL = "Label"` (`mqtt_handler.py` line 14). -/
def LABEL_CHANNEL : String := "Label"

/-! ## Effects of message handling -/

/-- One invocation of the underlying transport send,
`client.publish(topic, payload, qos)`. -/
structure SendCall where
  topic : String
  payload : List Nat
  qos : Nat
deriving DecidableEq, Repr

/-- The decision-relevant log lines of `mqtt_handler.py` (debug-level lines
that carry no branching information are not tracked). -/
inductive Log where
  /-- `logger.info("Event received: ...")`, line 189. -/
  | infoEventReceived
  /-- `logger.error("Malformed event: ...")`, line 195. -/
  | errorMalformed (event : List Nat)
  /-- `logger.debug("Skipping label event ...")`, line 214. -/
  | debugSkipLabel
  /-- `logger.warning("Cannot publish label event - MQTT not connected")`,
  line 220. -/
  | warnCannotPublish
  /-- `logger.info("Publishing label event: ...")`, line 225. -/
  | infoPublishingLabel
  /-- `logger.warning("Failed to publish label event ...")`, line 237. -/
  | warnPublishFailed (rc : Nat)
  /-- `logger.error("Exception while publishing label event ...")`,
  line 239. -/
  | errorPublishException
deriving DecidableEq, Repr

/-- Behaviour of the external `client.publish` call: it returns a message
info object with fields `mid` and `rc`, or raises. -/
inductive PubRes where
  | ok (mid : Nat) (rc : Nat)
  | raises
deriving DecidableEq, Repr

/-- The Python value returned by `publish_label_event`: every path of the
source ends in a bare `return` or falls off the end, i.e. returns `None`. -/
inductive PyVal where
  | none
deriving DecidableEq, Repr

/-- Python truthiness of the returned value (`None` is falsy). -/
def PyVal.isTruthy : PyVal → Bool
  | PyVal.none => false

/-- The exception that escapes `on_message` when the payload is not valid
UTF-8 (`msg.payload.decode()` at line 188 is not guarded). -/
inductive PyError where
  | unicodeDecodeError
deriving DecidableEq, Repr

deriving instance DecidableEq for Except

/-- Observable outcome of `MQTTHandler.publish_label_event`. -/
structure PubEffects where
  sends : List SendCall
  logs : List Log
  ret : PyVal
deriving DecidableEq, Repr

/-- `MQTTHandler.publish_label_event` (`mqtt_handler.py` lines 217-240).
`connected` is `self.connected`; `pub` is what `self.client.publish` does
when invoked.  The `try/except` around the publish call swallows any
exception, so the function always returns `None`. -/
def publish_label_event (connected : Bool) (pub : PubRes)
    (hash_ : List Nat) (success : Bool) : PubEffects :=
  if connected = false then
    { sends := [], logs := [Log.warnCannotPublish], ret := PyVal.none }
  else
    let label := if success then ackToken else nackToken
    let event := hash_ ++ 9 :: label
    match pub with
    | PubRes.ok _mid rc =>
      { sends := [{ topic := LABEL_CHANNEL, payload := event, qos := 2 }],
        logs := [Log.infoPublishingLabel] ++
                (if rc = 0 then [] else [Log.warnPublishFailed rc]),
        ret := PyVal.none }
    | PubRes.raises =>
      { sends := [{ topic := LABEL_CHANNEL, payload := event, qos := 2 }],
        logs := [Log.infoPublishingLabel, Log.errorPublishException],
        ret := PyVal.none }

/-- Observable outcome of one `on_message` callback invocation. -/
structure MsgEffects where
  /-- Calls to `self.transfer_handler.transfer_file(filename, hash_,
  typecode)`, in order. -/
  transfers : List (List Nat × List Nat × List Nat)
  /-- Calls to the underlying `client.publish`. -/
  sends : List SendCall
  logs : List Log
deriving DecidableEq, Repr

/-- `MQTTHandler.on_message` (`mqtt_handler.py` lines 186-215).
`labelling` is `self.config.labelling`, `connected` is `self.connected`,
`pub` the behaviour of `client.publish`, and `transferOutcome` the boolean
result of `self.transfer_handler.transfer_file` (which is total, see
`transfer_file` below).  An `Except.error` result models an exception
propagating out of the callback: the only such path is the unguarded
`msg.payload.decode()` on a payload that is not valid UTF-8. -/
def on_message (labelling connected : Bool) (pub : PubRes)
    (transferOutcome : List Nat → List Nat → List Nat → Bool)
    (payload : List Nat) : Except PyError MsgEffects :=
  match utf8Decode payload with
  | none => Except.error PyError.unicodeDecodeError
  | some cps =>
    match splitTab cps with
    | filename :: hash_ :: typecode :: _ =>
      let success := transferOutcome filename hash_ typecode
      if labelling = true ∧ hash_ ≠ notUsedHash then
        let p := publish_label_event connected pub hash_ success
        Except.ok { transfers := [(filename, hash_, typecode)],
                    sends := p.sends,
                    logs := Log.infoEventReceived :: p.logs }
      else
        Except.ok { transfers := [(filename, hash_, typecode)],
                    sends := [],
                    logs := [Log.infoEventReceived, Log.debugSkipLabel] }
    | _ =>
      Except.ok { transfers := [], sends := [],
                  logs := [Log.infoEventReceived, Log.errorMalformed cps] }

/-! ## Connection backoff state machine

`MQTTHandler.__init__` sets `reconnect_delay = 5`, `max_reconnect_delay =
60` and `current_reconnect_delay = reconnect_delay`
(`mqtt_handler.py` lines 25-29).
-/

/-- The connection-relevant fields of `MQTTHandler`. -/
structure ConnState where
  connected : Bool
  running : Bool
  reconnect_delay : Nat
  max_reconnect_delay : Nat
  current_reconnect_delay : Nat
deriving DecidableEq, Repr

/-- The state established by `MQTTHandler.__init__`
(`mqtt_handler.py` lines 25-29). -/
def initState : ConnState :=
  { connected := false, running := false, reconnect_delay := 5,
    max_reconnect_delay := 60, current_reconnect_delay := 5 }

/-- The backoff update performed after a failed connect attempt:
`self.current_reconnect_delay = min(self.current_reconnect_delay * 2,
self.max_reconnect_delay)` (`mqtt_handler.py` lines 108-109). -/
def backoffAfterFailure (st : ConnState) : ConnState :=
  { st with current_reconnect_delay :=
      (min (st.current_reconnect_delay * 2) st.max_reconnect_delay) }

/-- `MQTTHandler._connect_with_retry` (`mqtt_handler.py` lines 89-110).
Each entry of `outcomes` is one `self.client.connect(...)` call: `true`
means it returned without raising (the loop `break`s; the result code is
handled later by `on_connect`), `false` means it raised.  On a raise the
loop sleeps `current_reconnect_delay` seconds and then doubles the delay,
capped at `max_reconnect_delay`.  Returns the final state and the list of
sleep durations, in order.  Within the call no callback runs in this
model, so `running`/`connected` are fixed and the `while` guard is
evaluated against the entry state. -/
def connect_with_retry : ConnState → List Bool → ConnState × List Nat
  | st, [] => (st, [])
  | st, o :: rest =>
    if st.running = true ∧ st.connected = false then
      if o then (st, [])
      else
        let r := connect_with_retry (backoffAfterFailure st) rest
        (r.1, st.current_reconnect_delay :: r.2)
    else (st, [])

/-- Transport actions issued by the `on_connect` callback. -/
inductive ConnEffect where
  | subscribe (topic : String) (qos : Nat)
deriving DecidableEq, Repr

/-- `MQTTHandler.on_connect` (`mqtt_handler.py` lines 112-140).  On result
code 0 it sets `connected`, resets `current_reconnect_delay` to
`reconnect_delay` and subscribes to the queue channel `"Down"` at QoS 2;
on any other code it clears `connected` and only logs. -/
def on_connect (st : ConnState) (rc : Nat) : ConnState × List ConnEffect :=
  if rc = 0 then
    ({ st with connected := true,
               current_reconnect_delay := st.reconnect_delay },
     [ConnEffect.subscribe "Down" 2])
  else
    ({ st with connected := false }, [])

/-! ## File transfer (`src/app/transfer.py`) -/

/-- The configuration fields read by `FileTransfer.transfer_file`. -/
structure TransferConfig where
  creds : String
  host : String
  threads : Nat
  segments : Nat
deriving DecidableEq, Repr

/-- Filesystem / environment oracles for the OS calls made by
`transfer_file`.  `which_lftp` is `shutil.which("lftp")`; `chdirOk d`
tells whether `os.chdir(d)` succeeds or raises `OSError`. -/
structure FsEnv where
  isdir : String → Bool
  chdirOk : String → Bool
  which_lftp : Option String
  chmodOk : String → Bool

/-- `HOSTKEYFIX = "set sftp:auto-confirm yes"` (`transfer.py` line 13). -/
def HOSTKEYFIX : String := "set sftp:auto-confirm yes"

/-- The mirror command argv (`transfer.py` lines 71-75). -/
def mirrorCmd (cfg : TransferConfig) (target : String) : List String :=
  ["lftp", "-u", cfg.creds, "sftp://" ++ cfg.host ++ "/",
   "-e", HOSTKEYFIX ++ "; mirror -c  --parallel=" ++ toString cfg.threads ++
         " --use-pget-n=" ++ toString cfg.segments ++
         " \"" ++ target ++ "\" ;quit"]

/-- The single-file pget fallback command argv (`transfer.py`
lines 97-100). -/
def pgetCmd (cfg : TransferConfig) (target : String) : List String :=
  ["lftp", "-u", cfg.creds, "sftp://" ++ cfg.host ++ "/",
   "-e", HOSTKEYFIX ++ "; pget -n " ++ toString cfg.threads ++
         " \"" ++ target ++ "\" ;quit"]

/-- `os.path.basename` for POSIX paths: everything after the last slash
(`transfer.py` line 123). -/
def basename (s : String) : String := (s.splitOn "/").getLastD ""

/-- The destination-directory resolution step (`transfer.py` lines 33-47):
`dest_dir = self.type_to_dir.get(typecode)`, and if the result is falsy
(absent or the empty string) fall back to the `ERR` entry when the key
`ERR` is present; `none` means the `return False` at line 47 is taken.
The type map is a Python dict, modelled as its lookup function. -/
def resolveDest (type_to_dir : String → Option String)
    (typecode : String) : Option String :=
  match type_to_dir typecode with
  | some d => if d = "" then type_to_dir "ERR" else some d
  | none => type_to_dir "ERR"

/-- Observable outcome of one `transfer_file` call. -/
structure TransferResult where
  /-- The returned boolean. -/
  ret : Bool
  /-- The `subprocess.run` invocations (argv lists), in order. -/
  invocations : List (List String)
  /-- The resolved `dest_dir` (`none` when resolution failed). -/
  destUsed : Option String
  /-- The process-wide working directory on return. -/
  cwdFinal : String
  /-- The `os.chmod(..., 0o666)` attempts. -/
  chmods : List String
deriving DecidableEq, Repr

/-- `FileTransfer.transfer_file` (`transfer.py` lines 27-138).  `run c` is
the exit status of `subprocess.run(c, check=True)`; `check=True` raises
`CalledProcessError` on a nonzero status, which the source catches to
drive the fallback.  `cwd0` is the working directory at entry.  The
`hash_` argument is only logged by the source, never used. -/
def transfer_file (cfg : TransferConfig)
    (type_to_dir : String → Option String) (fs : FsEnv)
    (run : List String → Nat) (cwd0 : String)
    (target hash_ typecode : String) : TransferResult :=
  match resolveDest type_to_dir typecode with
  | none =>
    { ret := false, invocations := [], destUsed := none,
      cwdFinal := cwd0, chmods := [] }
  | some dest =>
    if fs.isdir dest = false then
      { ret := false, invocations := [], destUsed := some dest,
        cwdFinal := cwd0, chmods := [] }
    else if fs.chdirOk dest = false then
      { ret := false, invocations := [], destUsed := some dest,
        cwdFinal := cwd0, chmods := [] }
    else if fs.which_lftp = Option.none then
      { ret := false, invocations := [], destUsed := some dest,
        cwdFinal := dest, chmods := [] }
    else
      let mcmd := mirrorCmd cfg target
      if run mcmd = 0 then
        { ret := true, invocations := [mcmd], destUsed := some dest,
          cwdFinal := dest, chmods := [basename target] }
      else
        let pcmd := pgetCmd cfg target
        { ret := decide (run pcmd = 0), invocations := [mcmd, pcmd],
          destUsed := some dest, cwdFinal := dest,
          chmods := [basename target] }

/-! ## Helper lemmas -/

/-- Every sleep performed by `_connect_with_retry` is bounded by the
configured maximum, provided the current delay respects it at entry. -/
theorem connect_with_retry_waits_le (outs : List Bool) :
    ∀ st : ConnState,
      st.current_reconnect_delay ≤ st.max_reconnect_delay →
      ∀ w ∈ (connect_with_retry st outs).2, w ≤ st.max_reconnect_delay := by
  induction outs with
  | nil =>
    intro st h w hw
    simp [connect_with_retry] at hw
  | cons o rest ih =>
    intro st h w hw
    unfold connect_with_retry at hw
    split at hw
    · split at hw
      · simp at hw
      · simp only [List.mem_cons] at hw
        rcases hw with hw | hw
        · omega
        · have hb : (backoffAfterFailure st).current_reconnect_delay ≤
              (backoffAfterFailure st).max_reconnect_delay := by
            simp [backoffAfterFailure]
          have hm := ih (backoffAfterFailure st) hb w hw
          simpa [backoffAfterFailure] using hm
    · simp at hw

/-- The resolved destination directory recorded by `transfer_file` is
exactly the result of the resolution step. -/
theorem transfer_file_destUsed (cfg : TransferConfig)
    (type_to_dir : String → Option String) (fs : FsEnv)
    (run : List String → Nat) (cwd0 target hash_ typecode : String) :
    (transfer_file cfg type_to_dir fs run cwd0 target hash_ typecode).destUsed
      = resolveDest type_to_dir typecode := by
  unfold transfer_file
  cases h : resolveDest type_to_dir typecode with
  | none => rfl
  | some d =>
    by_cases h1 : fs.isdir d = false
    · simp [h1]
    · by_cases h2 : fs.chdirOk d = false
      · simp [h1, h2]
      · by_cases h3 : fs.which_lftp = Option.none
        · simp [h1, h2, h3]
        · by_cases h4 : run (mirrorCmd cfg target) = 0 <;>
            simp [h1, h2, h3, h4]

/-- When the resolution step fails, `transfer_file` returns immediately:
`False`, no subprocess, no directory change, no chmod. -/
theorem transfer_file_resolveNone (cfg : TransferConfig)
    (type_to_dir : String → Option String) (fs : FsEnv)
    (run : List String → Nat) (cwd0 target hash_ typecode : String)
    (h : resolveDest type_to_dir typecode = none) :
    transfer_file cfg type_to_dir fs run cwd0 target hash_ typecode =
      { ret := false, invocations := [], destUsed := none,
        cwdFinal := cwd0, chmods := [] } := by
  unfold transfer_file
  rw [h]

/-! ## Claim theorems -/

/-- Claim C1, counterexample: the claim "for every raw payload (bytes),
`on_message` never raises" is false.  The single byte `0xFF` is not valid
UTF-8, so the unguarded `msg.payload.decode()` at `mqtt_handler.py` line
188 raises `UnicodeDecodeError`, which propagates out of the callback. -/
theorem on_message_raises_on_invalid_utf8 :
    on_message true true (PubRes.ok 1 0) (fun _ _ _ => true) [255] =
      Except.error PyError.unicodeDecodeError := by
  rfl

/-- Claim C1, amended: for every raw payload that decodes as UTF-8,
`on_message` returns normally — malformed shape, transfer failure and
publish failure are all captured as a log line or a boolean, and no
exception propagates to the transport callback context. -/
theorem on_message_total_on_utf8 (labelling connected : Bool)
    (pub : PubRes) (oracle : List Nat → List Nat → List Nat → Bool)
    (payload cps : List Nat) (hdec : utf8Decode payload = some cps) :
    ∃ eff : MsgEffects,
      on_message labelling connected pub oracle payload = Except.ok eff := by
  simp only [on_message, hdec]
  cases hs : splitTab cps with
  | nil => exact ⟨_, rfl⟩
  | cons a l =>
    cases l with
    | nil => exact ⟨_, rfl⟩
    | cons b l2 =>
      cases l2 with
      | nil => exact ⟨_, rfl⟩
      | cons c t =>
        dsimp only
        split
        · exact ⟨_, rfl⟩
        · exact ⟨_, rfl⟩

/-- Claim C1, witness for the amended theorem at the concrete ASCII
payload `"a\tb\tc"`. -/
theorem on_message_total_on_utf8_witness :
    utf8Decode [97, 9, 98, 9, 99] = some [97, 9, 98, 9, 99] ∧
    ∃ eff : MsgEffects,
      on_message true true (PubRes.ok 1 0) (fun _ _ _ => true)
        [97, 9, 98, 9, 99] = Except.ok eff :=
  ⟨by decide,
   on_message_total_on_utf8 true true (PubRes.ok 1 0) (fun _ _ _ => true)
     [97, 9, 98, 9, 99] [97, 9, 98, 9, 99] (by decide)⟩

/-- Claim C4: for a handled message with at least 3 fields, a label event
is handed to the transport only when the labelling flag is enabled and the
parsed `contentHash` differs from the literal `"NotUsed"`; the sentinel
hash suppresses publication regardless of the flag, and a disabled flag
suppresses it regardless of the hash (`mqtt_handler.py` lines 210-215). -/
theorem label_publish_guard (labelling connected : Bool) (pub : PubRes)
    (oracle : List Nat → List Nat → List Nat → Bool)
    (payload cps filename hash_ typecode : List Nat)
    (restFields : List (List Nat)) (eff : MsgEffects)
    (hdec : utf8Decode payload = some cps)
    (hsplit : splitTab cps = filename :: hash_ :: typecode :: restFields)
    (hok : on_message labelling connected pub oracle payload =
             Except.ok eff) :
    (eff.sends ≠ [] → labelling = true ∧ hash_ ≠ notUsedHash) ∧
    (hash_ = notUsedHash → eff.sends = []) ∧
    (labelling = false → eff.sends = []) := by
  simp only [on_message, hdec, hsplit] at hok
  by_cases hg : labelling = true ∧ hash_ ≠ notUsedHash
  · rw [if_pos hg] at hok
    simp only [Except.ok.injEq] at hok
    refine ⟨fun _ => hg, fun hn => absurd hn hg.2, fun hl => ?_⟩
    simp [hg.1] at hl
  · rw [if_neg hg] at hok
    simp only [Except.ok.injEq] at hok
    have hsends : eff.sends = [] := by rw [← hok]
    exact ⟨fun hne => absurd hsends hne, fun _ => hsends, fun _ => hsends⟩

/-- Claim C4, witness: payload `"x\tNotUsed\tMOV"` with labelling enabled
and a healthy connection produces no send. -/
theorem label_publish_guard_witness :
    utf8Decode ([120, 9] ++ notUsedHash ++ [9, 77, 79, 86]) =
      some ([120, 9] ++ notUsedHash ++ [9, 77, 79, 86]) ∧
    splitTab ([120, 9] ++ notUsedHash ++ [9, 77, 79, 86]) =
      [120] :: notUsedHash :: [77, 79, 86] :: [] ∧
    on_message true true (PubRes.ok 1 0) (fun _ _ _ => true)
        ([120, 9] ++ notUsedHash ++ [9, 77, 79, 86]) =
      Except.ok { transfers := [([120], notUsedHash, [77, 79, 86])],
                  sends := [],
                  logs := [Log.infoEventReceived, Log.debugSkipLabel] } ∧
    ((({ transfers := [([120], notUsedHash, [77, 79, 86])], sends := [],
         logs := [Log.infoEventReceived, Log.debugSkipLabel] } :
         MsgEffects).sends ≠ [] →
        true = true ∧ notUsedHash ≠ notUsedHash) ∧
     (notUsedHash = notUsedHash →
        ({ transfers := [([120], notUsedHash, [77, 79, 86])], sends := [],
           logs := [Log.infoEventReceived, Log.debugSkipLabel] } :
           MsgEffects).sends = []) ∧
     (true = false →
        ({ transfers := [([120], notUsedHash, [77, 79, 86])], sends := [],
           logs := [Log.infoEventReceived, Log.debugSkipLabel] } :
           MsgEffects).sends = [])) :=
  ⟨by decide, by decide, by decide,
   label_publish_guard true true (PubRes.ok 1 0) (fun _ _ _ => true)
     ([120, 9] ++ notUsedHash ++ [9, 77, 79, 86])
     ([120, 9] ++ notUsedHash ++ [9, 77, 79, 86])
     [120] notUsedHash [77, 79, 86] []
     { transfers := [([120], notUsedHash, [77, 79, 86])], sends := [],
       logs := [Log.infoEventReceived, Log.debugSkipLabel] }
     (by decide) (by decide) (by decide)⟩

/-- Claim C5: a payload that decodes to fewer than 3 tab-delimited fields
is logged and discarded with no side effects: no transfer call, no send,
only the malformed-event error log (`mqtt_handler.py` lines 193-197). -/
theorem malformed_discard (labelling connected : Bool) (pub : PubRes)
    (oracle : List Nat → List Nat → List Nat → Bool)
    (payload cps : List Nat)
    (hdec : utf8Decode payload = some cps)
    (hlen : (splitTab cps).length < 3) :
    on_message labelling connected pub oracle payload =
      Except.ok { transfers := [], sends := [],
                  logs := [Log.infoEventReceived, Log.errorMalformed cps] } := by
  simp only [on_message, hdec]
  cases hs : splitTab cps with
  | nil => rfl
  | cons a l =>
    cases l with
    | nil => rfl
    | cons b l2 =>
      cases l2 with
      | nil => rfl
      | cons c t =>
        rw [hs] at hlen
        simp only [List.length_cons] at hlen
        exact absurd hlen (by omega)

/-- Claim C5, witness at the concrete two-field payload
`"incomplete\tevent"`. -/
theorem malformed_discard_witness :
    utf8Decode (strCps "incomplete\tevent") =
      some (strCps "incomplete\tevent") ∧
    (splitTab (strCps "incomplete\tevent")).length < 3 ∧
    on_message true true (PubRes.ok 1 0) (fun _ _ _ => true)
        (strCps "incomplete\tevent") =
      Except.ok { transfers := [], sends := [],
                  logs := [Log.infoEventReceived,
                           Log.errorMalformed (strCps "incomplete\tevent")] } :=
  ⟨by decide, by decide,
   malformed_discard true true (PubRes.ok 1 0) (fun _ _ _ => true)
     (strCps "incomplete\tevent") (strCps "incomplete\tevent")
     (by decide) (by decide)⟩

/-- Claim C8: a `publish_label_event` call while `connected` is false
never invokes the underlying `client.publish`, logs a warning, and
returns immediately with `None` — the falsy failure indicator the tests
expect — whatever the transport would have done and whatever the
arguments are (`mqtt_handler.py` lines 219-221).  The model is a total
function: the disconnected path performs no wait. -/
theorem publish_disconnected_no_send (pub : PubRes) (hash_ : List Nat)
    (success : Bool) :
    publish_label_event false pub hash_ success =
      { sends := [], logs := [Log.warnCannotPublish], ret := PyVal.none } ∧
    ((publish_label_event false pub hash_ success).ret).isTruthy = false :=
  ⟨rfl, rfl⟩

/-- Claim C3: while running and disconnected, each failed connect attempt
sleeps the current backoff and then doubles it, capped at the configured
maximum of 60 so it never exceeds it (doubling exactly while the double
stays within the cap); every sleep is bounded by 60; and a successful
connect (result code 0) resets the backoff to the configured initial
value no matter how large it had grown.  The initial configuration is
5s initial / 60s maximum (`mqtt_handler.py` lines 27-29, 104-110,
114-117). -/
theorem connect_backoff_spec (st : ConnState) (rest : List Bool)
    (hrun : st.running = true) (hconn : st.connected = false)
    (hmax : st.max_reconnect_delay = 60)
    (hcur : st.current_reconnect_delay ≤ 60) :
    (connect_with_retry st (false :: rest) =
      ((connect_with_retry (backoffAfterFailure st) rest).1,
       st.current_reconnect_delay ::
         (connect_with_retry (backoffAfterFailure st) rest).2)) ∧
    ((backoffAfterFailure st).current_reconnect_delay =
      min (st.current_reconnect_delay * 2) 60) ∧
    ((backoffAfterFailure st).current_reconnect_delay ≤ 60) ∧
    (st.current_reconnect_delay * 2 ≤ 60 →
      (backoffAfterFailure st).current_reconnect_delay =
        st.current_reconnect_delay * 2) ∧
    (∀ w ∈ (connect_with_retry st (false :: rest)).2, w ≤ 60) ∧
    (∀ st2 : ConnState,
      (on_connect st2 0).1.current_reconnect_delay = st2.reconnect_delay ∧
      (on_connect st2 0).1.connected = true) ∧
    (initState.reconnect_delay = 5 ∧ initState.max_reconnect_delay = 60 ∧
     initState.current_reconnect_delay = 5) := by
  refine ⟨?_, ?_, ?_, ?_, ?_, ?_, rfl, rfl, rfl⟩
  · rw [connect_with_retry, if_pos ⟨hrun, hconn⟩]
    rfl
  · rw [backoffAfterFailure, hmax]
  · simp [backoffAfterFailure, hmax]
  · intro h2
    simp [backoffAfterFailure, hmax]
    omega
  · intro w hw
    have hb := connect_with_retry_waits_le (false :: rest) st (by omega) w hw
    omega
  · intro st2
    constructor <;> simp [on_connect]

/-- Claim C3, witness: from the freshly started state (initial delay 5,
max 60) with two failed attempts then a success. -/
theorem connect_backoff_spec_witness :
    (⟨false, true, 5, 60, 5⟩ : ConnState).running = true ∧
    (⟨false, true, 5, 60, 5⟩ : ConnState).connected = false ∧
    (⟨false, true, 5, 60, 5⟩ : ConnState).max_reconnect_delay = 60 ∧
    (⟨false, true, 5, 60, 5⟩ : ConnState).current_reconnect_delay ≤ 60 ∧
    ((connect_with_retry (⟨false, true, 5, 60, 5⟩ : ConnState)
        (false :: [false, true]) =
      ((connect_with_retry
          (backoffAfterFailure (⟨false, true, 5, 60, 5⟩ : ConnState))
          [false, true]).1,
       (⟨false, true, 5, 60, 5⟩ : ConnState).current_reconnect_delay ::
         (connect_with_retry
            (backoffAfterFailure (⟨false, true, 5, 60, 5⟩ : ConnState))
            [false, true]).2)) ∧
    ((backoffAfterFailure
        (⟨false, true, 5, 60, 5⟩ : ConnState)).current_reconnect_delay =
      min ((⟨false, true, 5, 60, 5⟩ :
        ConnState).current_reconnect_delay * 2) 60) ∧
    ((backoffAfterFailure
        (⟨false, true, 5, 60, 5⟩ : ConnState)).current_reconnect_delay
      ≤ 60) ∧
    ((⟨false, true, 5, 60, 5⟩ : ConnState).current_reconnect_delay * 2
        ≤ 60 →
      (backoffAfterFailure
          (⟨false, true, 5, 60, 5⟩ : ConnState)).current_reconnect_delay =
        (⟨false, true, 5, 60, 5⟩ :
          ConnState).current_reconnect_delay * 2) ∧
    (∀ w ∈ (connect_with_retry (⟨false, true, 5, 60, 5⟩ : ConnState)
        (false :: [false, true])).2, w ≤ 60) ∧
    (∀ st2 : ConnState,
      (on_connect st2 0).1.current_reconnect_delay = st2.reconnect_delay ∧
      (on_connect st2 0).1.connected = true) ∧
    (initState.reconnect_delay = 5 ∧ initState.max_reconnect_delay = 60 ∧
     initState.current_reconnect_delay = 5)) :=
  ⟨rfl, rfl, rfl, by decide,
   connect_backoff_spec ⟨false, true, 5, 60, 5⟩ [false, true]
     rfl rfl rfl (by decide)⟩

/-- Claim C2: once `transfer_file` reaches the transfer-attempt stage
(resolution succeeded, the destination exists, `os.chdir` succeeded,
`lftp` is on the path), a nonzero mirror exit leads to exactly one pget
fallback invocation, and the returned boolean is true iff the mirror or
the pget invocation exited 0 (`transfer.py` lines 80-138). -/
theorem transfer_attempt_fallback_spec (cfg : TransferConfig)
    (type_to_dir : String → Option String) (fs : FsEnv)
    (run : List String → Nat) (cwd0 target hash_ typecode d : String)
    (hres : resolveDest type_to_dir typecode = some d)
    (hdir : fs.isdir d = true) (hch : fs.chdirOk d = true)
    (hlftp : fs.which_lftp ≠ Option.none) :
    ((transfer_file cfg type_to_dir fs run cwd0 target hash_ typecode).ret
        = true ↔
      (run (mirrorCmd cfg target) = 0 ∨ run (pgetCmd cfg target) = 0)) ∧
    (run (mirrorCmd cfg target) ≠ 0 →
      (transfer_file cfg type_to_dir fs run cwd0 target hash_
          typecode).invocations =
        [mirrorCmd cfg target, pgetCmd cfg target]) ∧
    (run (mirrorCmd cfg target) = 0 →
      (transfer_file cfg type_to_dir fs run cwd0 target hash_
          typecode).invocations = [mirrorCmd cfg target]) := by
  unfold transfer_file
  rw [hres]
  dsimp only
  rw [if_neg (by simp [hdir]), if_neg (by simp [hch]), if_neg hlftp]
  by_cases hm : run (mirrorCmd cfg target) = 0
  · rw [if_pos hm]
    exact ⟨by simp [hm], fun hne => absurd hm hne, fun _ => rfl⟩
  · rw [if_neg hm]
    refine ⟨?_, fun _ => rfl, fun h0 => absurd h0 hm⟩
    simp only [decide_eq_true_eq]
    constructor
    · exact fun h => Or.inr h
    · intro h
      rcases h with h | h
      · exact absurd h hm
      · exact h

/-- Concrete configuration used by the transfer witnesses. -/
def cfgW : TransferConfig :=
  { creds := "user,pass", host := "seed.example", threads := 4,
    segments := 8 }

/-- Concrete type map `{"MOV": "/d/movies"}`. -/
def ttdW : String → Option String :=
  fun k => if k = "MOV" then some "/d/movies" else none

/-- Concrete filesystem where only `/d/movies` exists and lftp is
installed. -/
def fsW : FsEnv :=
  { isdir := fun d => d == "/d/movies", chdirOk := fun _ => true,
    which_lftp := some "/usr/bin/lftp", chmodOk := fun _ => true }

/-- Concrete subprocess behaviour: the mirror command for `movie.mkv`
exits 1, everything else exits 0. -/
def runW : List String → Nat :=
  fun c => if c = mirrorCmd cfgW "movie.mkv" then 1 else 0

/-- Claim C2, witness: mirror fails, pget succeeds, so the call records
exactly the two invocations and returns true. -/
theorem transfer_attempt_fallback_witness :
    resolveDest ttdW "MOV" = some "/d/movies" ∧
    fsW.isdir "/d/movies" = true ∧
    fsW.chdirOk "/d/movies" = true ∧
    fsW.which_lftp ≠ Option.none ∧
    (((transfer_file cfgW ttdW fsW runW "/start" "movie.mkv" "hash123"
          "MOV").ret = true ↔
        (runW (mirrorCmd cfgW "movie.mkv") = 0 ∨
         runW (pgetCmd cfgW "movie.mkv") = 0)) ∧
     (runW (mirrorCmd cfgW "movie.mkv") ≠ 0 →
       (transfer_file cfgW ttdW fsW runW "/start" "movie.mkv" "hash123"
           "MOV").invocations =
         [mirrorCmd cfgW "movie.mkv", pgetCmd cfgW "movie.mkv"]) ∧
     (runW (mirrorCmd cfgW "movie.mkv") = 0 →
       (transfer_file cfgW ttdW fsW runW "/start" "movie.mkv" "hash123"
           "MOV").invocations = [mirrorCmd cfgW "movie.mkv"])) :=
  ⟨by decide, by decide, rfl, by decide,
   transfer_attempt_fallback_spec cfgW ttdW fsW runW "/start" "movie.mkv"
     "hash123" "MOV" "/d/movies" (by decide) (by decide) rfl (by decide)⟩

/-- Claim C6: when the typecode is absent from the map and the key
`ERR` is present, the destination resolves to the ERR directory — the
resolution step never fails (`transfer.py` lines 33-47). -/
theorem err_fallback_resolution (cfg : TransferConfig)
    (type_to_dir : String → Option String) (fs : FsEnv)
    (run : List String → Nat) (cwd0 target hash_ typecode e : String)
    (habs : type_to_dir typecode = none)
    (herr : type_to_dir "ERR" = some e) :
    resolveDest type_to_dir typecode = some e ∧
    (transfer_file cfg type_to_dir fs run cwd0 target hash_
        typecode).destUsed = some e := by
  have h1 : resolveDest type_to_dir typecode = some e := by
    simp only [resolveDest, habs, herr]
  exact ⟨h1, by rw [transfer_file_destUsed, h1]⟩

/-- Concrete type map `{"ERR": "/d/err"}` for the ERR-fallback
witness. -/
def ttdErrW : String → Option String :=
  fun k => if k = "ERR" then some "/d/err" else none

/-- Claim C6, witness at the unmapped typecode `"XCODE"`. -/
theorem err_fallback_resolution_witness :
    ttdErrW "XCODE" = none ∧
    ttdErrW "ERR" = some "/d/err" ∧
    (resolveDest ttdErrW "XCODE" = some "/d/err" ∧
     (transfer_file cfgW ttdErrW fsW runW "/start" "movie.mkv" "hash123"
         "XCODE").destUsed = some "/d/err") :=
  ⟨by decide, by decide,
   err_fallback_resolution cfgW ttdErrW fsW runW "/start" "movie.mkv"
     "hash123" "XCODE" "/d/err" (by decide) (by decide)⟩

/-- Claim C7: when the typecode is absent and no `ERR` entry exists,
`transfer_file` returns false without invoking any subprocess
(`transfer.py` lines 37-47). -/
theorem unknown_type_no_subprocess (cfg : TransferConfig)
    (type_to_dir : String → Option String) (fs : FsEnv)
    (run : List String → Nat) (cwd0 target hash_ typecode : String)
    (habs : type_to_dir typecode = none)
    (herr : type_to_dir "ERR" = none) :
    (transfer_file cfg type_to_dir fs run cwd0 target hash_
        typecode).ret = false ∧
    (transfer_file cfg type_to_dir fs run cwd0 target hash_
        typecode).invocations = [] := by
  have h1 : resolveDest type_to_dir typecode = none := by
    simp only [resolveDest, habs, herr]
  rw [transfer_file_resolveNone cfg type_to_dir fs run cwd0 target hash_
    typecode h1]
  exact ⟨rfl, rfl⟩

/-- The empty type map, for the no-fallback witness. -/
def ttdNoneW : String → Option String := fun _ => none

/-- Claim C7, witness: empty map, unmapped typecode. -/
theorem unknown_type_no_subprocess_witness :
    ttdNoneW "XCODE" = none ∧
    ttdNoneW "ERR" = none ∧
    ((transfer_file cfgW ttdNoneW fsW runW "/start" "movie.mkv" "hash123"
        "XCODE").ret = false ∧
     (transfer_file cfgW ttdNoneW fsW runW "/start" "movie.mkv" "hash123"
        "XCODE").invocations = []) :=
  ⟨rfl, rfl,
   unknown_type_no_subprocess cfgW ttdNoneW fsW runW "/start" "movie.mkv"
     "hash123" "XCODE" rfl rfl⟩

/-- Claim C9: a typecode that is present but maps to the empty (falsy)
string behaves exactly like an absent typecode at the resolution step:
the lookup falls back to the `ERR` entry when present, and when no `ERR`
entry exists the transfer fails with no subprocess invocation
(`transfer.py` lines 33-47: `if not dest_dir` is a truthiness test). -/
theorem empty_mapping_as_absent (cfg : TransferConfig)
    (type_to_dir : String → Option String) (fs : FsEnv)
    (run : List String → Nat) (cwd0 target hash_ typecode : String)
    (hemp : type_to_dir typecode = some "") :
    resolveDest type_to_dir typecode = type_to_dir "ERR" ∧
    (∀ e, type_to_dir "ERR" = some e →
      (transfer_file cfg type_to_dir fs run cwd0 target hash_
          typecode).destUsed = some e) ∧
    (type_to_dir "ERR" = none →
      (transfer_file cfg type_to_dir fs run cwd0 target hash_
          typecode).ret = false ∧
      (transfer_file cfg type_to_dir fs run cwd0 target hash_
          typecode).invocations = []) := by
  have h1 : resolveDest type_to_dir typecode = type_to_dir "ERR" := by
    simp [resolveDest, hemp]
  refine ⟨h1, ?_, ?_⟩
  · intro e he
    rw [transfer_file_destUsed, h1, he]
  · intro he
    rw [transfer_file_resolveNone cfg type_to_dir fs run cwd0 target hash_
      typecode (h1.trans he)]
    exact ⟨rfl, rfl⟩

/-- Type map where `MOV` is present but empty and `ERR` is present. -/
def ttdEmptyW : String → Option String :=
  fun k => if k = "MOV" then some "" else
           if k = "ERR" then some "/d/err" else none

/-- Claim C9, witness: `MOV` maps to the empty string, so resolution
falls back to the ERR directory. -/
theorem empty_mapping_as_absent_witness :
    ttdEmptyW "MOV" = some "" ∧
    (resolveDest ttdEmptyW "MOV" = ttdEmptyW "ERR" ∧
     (∀ e, ttdEmptyW "ERR" = some e →
       (transfer_file cfgW ttdEmptyW fsW runW "/start" "movie.mkv"
           "hash123" "MOV").destUsed = some e) ∧
     (ttdEmptyW "ERR" = none →
       (transfer_file cfgW ttdEmptyW fsW runW "/start" "movie.mkv"
           "hash123" "MOV").ret = false ∧
       (transfer_file cfgW ttdEmptyW fsW runW "/start" "movie.mkv"
           "hash123" "MOV").invocations = [])) :=
  ⟨by decide,
   empty_mapping_as_absent cfgW ttdEmptyW fsW runW "/start" "movie.mkv"
     "hash123" "MOV" (by decide)⟩

/-- Claim C10: whenever `transfer_file` succeeds in changing directory to
the resolved destination, the process-wide working directory is that
destination on return, on success and on every later failure path alike;
it is never restored to the entry directory (`transfer.py` lines 55-61:
`os.chdir(dest_dir)` with no matching restore). -/
theorem transfer_cwd_not_restored (cfg : TransferConfig)
    (type_to_dir : String → Option String) (fs : FsEnv)
    (run : List String → Nat) (cwd0 target hash_ typecode d : String)
    (hres : resolveDest type_to_dir typecode = some d)
    (hdir : fs.isdir d = true) (hch : fs.chdirOk d = true) :
    (transfer_file cfg type_to_dir fs run cwd0 target hash_
        typecode).cwdFinal = d := by
  unfold transfer_file
  rw [hres]
  dsimp only
  rw [if_neg (by simp [hdir]), if_neg (by simp [hch])]
  by_cases h3 : fs.which_lftp = Option.none
  · rw [if_pos h3]
  · rw [if_neg h3]
    by_cases h4 : run (mirrorCmd cfg target) = 0
    · rw [if_pos h4]
    · rw [if_neg h4]

/-- Claim C10, witness: the `lftp`-missing failure path still leaves the
working directory at the destination. -/
theorem transfer_cwd_not_restored_witness :
    resolveDest ttdW "MOV" = some "/d/movies" ∧
    fsW.isdir "/d/movies" = true ∧
    fsW.chdirOk "/d/movies" = true ∧
    (transfer_file cfgW ttdW
        { fsW with which_lftp := Option.none } runW "/start" "movie.mkv"
        "hash123" "MOV").cwdFinal = "/d/movies" :=
  ⟨by decide, by decide, rfl,
   transfer_cwd_not_restored cfgW ttdW
     { fsW with which_lftp := Option.none } runW "/start" "movie.mkv"
     "hash123" "MOV" "/d/movies" (by decide) (by decide) rfl⟩

end Q4D
